import Mathlib

/-!
# Verification of the blueguard-website derived-metrics and gateway layer

Shallow embedding of the pure logic of the repository:
* `Utils` — `src/lib/utils.ts` (`calculateWQI`, `formatForMLAPI`).
* `Api` — the two versions of `src/lib/api.ts` found in the tree
  (`Api.V1` = first version, `Api.V2` = second version): `generateAlerts`,
  `generateWQIAlerts`, `getNowcast`/`getForecast`/`getClassification`,
  `getMockPrediction`, `formatForMLAPI`, `exportToCSV`.

JavaScript numbers are modelled by `JSNum`: either `NaN` or a rational.
Comparisons involving `NaN` are false, arithmetic propagates `NaN`,
`Math.max`/`Math.min`/`Math.round` return `NaN` on `NaN`, exactly as in JS.
Impure inputs (`Math.random()`, `new Date()`) are passed as explicit
parameters; the HTTP transport is modelled by a `TransportResult` oracle.
-/

/-- A JavaScript number: `NaN` or a rational value. -/
inductive JSNum where
  | nan : JSNum
  | num : ℚ → JSNum
  deriving DecidableEq, Repr

namespace JSNum

/-- JS `x < c` (false when `x` is `NaN`). -/
def ltc : JSNum → ℚ → Bool
  | .nan, _ => false
  | .num q, c => decide (q < c)

/-- JS `x > c` (false when `x` is `NaN`). -/
def gtc : JSNum → ℚ → Bool
  | .nan, _ => false
  | .num q, c => decide (q > c)

/-- JS `c - x` (NaN-propagating). -/
def csub (c : ℚ) : JSNum → JSNum
  | .nan => .nan
  | .num q => .num (c - q)

/-- JS `x - c` (NaN-propagating). -/
def subc : JSNum → ℚ → JSNum
  | .nan, _ => .nan
  | .num q, c => .num (q - c)

/-- JS `x * c` (NaN-propagating). -/
def mulc : JSNum → ℚ → JSNum
  | .nan, _ => .nan
  | .num q, c => .num (q * c)

/-- JS `x / c` (NaN-propagating; all uses have `c ≠ 0`). -/
def divc : JSNum → ℚ → JSNum
  | .nan, _ => .nan
  | .num q, c => .num (q / c)

/-- JS `x + y` (NaN-propagating). -/
def add : JSNum → JSNum → JSNum
  | .nan, _ => .nan
  | _, .nan => .nan
  | .num a, .num b => .num (a + b)

/-- JS `Math.max(c, x)`: `NaN` if `x` is `NaN`. -/
def maxc (c : ℚ) : JSNum → JSNum
  | .nan => .nan
  | .num q => .num (max c q)

/-- JS `Math.min(c, x)`: `NaN` if `x` is `NaN`. -/
def minc (c : ℚ) : JSNum → JSNum
  | .nan => .nan
  | .num q => .num (min c q)

/-- JS `Math.round`: `⌊x + 1/2⌋` on numbers, `NaN` on `NaN`.
(Mathlib's `round` on `ℚ` is exactly `⌊x + 1/2⌋`.) -/
def jround : JSNum → JSNum
  | .nan => .nan
  | .num q => .num (round q : ℤ)

/-- `typeof x === 'number' && !isNaN(x)`: true exactly on non-NaN numbers. -/
def isNumB : JSNum → Bool
  | .nan => false
  | .num _ => true

/-- Non-NaN and nonnegative (used to state data-model invariants). -/
def nonnegB : JSNum → Bool
  | .nan => false
  | .num q => decide (0 ≤ q)

end JSNum

/-- Left-pad a decimal numeral with zeros to `w` digits. -/
def padZeros (w : ℕ) (n : ℕ) : String :=
  let s := toString n
  String.mk (List.replicate (w - s.length) '0') ++ s

/-- JS `Number.prototype.toFixed(d)` on rationals: round `q·10^d` to the
nearest integer (ties up) and print with exactly `d` decimals. -/
def toFixed (d : ℕ) (q : ℚ) : String :=
  let n : ℤ := round (q * (10 : ℚ) ^ d)
  let sign := if n < 0 then "-" else ""
  let m := n.natAbs
  sign ++ toString (m / 10 ^ d) ++ "." ++ padZeros d (m % 10 ^ d)

/-- Decimal rendering of a JS number in string interpolation / `String(x)`.
Exact for integral values (the only values the theorems below evaluate);
non-integral rationals are rendered as `num/den`. -/
def numToString (q : ℚ) : String :=
  if q.den = 1 then toString q.num
  else toString q.num ++ "/" ++ toString q.den

/-- `String(x)` / `x.toString()` for a JS number. -/
def jsnumToString : JSNum → String
  | .nan => "NaN"
  | .num q => numToString q

namespace Utils

/-- `Partial<SensorReading>` as read by `calculateWQI` (src/lib/utils.ts):
only the four fields `ph`, `tds`, `turbidity`, `dissolved_oxygen` are
inspected; `none` models an absent (`undefined`) field.  The remaining
optional fields of the interface are never read by the function. -/
structure PartialReading where
  ph : Option JSNum := none
  tds : Option JSNum := none
  turbidity : Option JSNum := none
  dissolved_oxygen : Option JSNum := none
  deriving DecidableEq, Repr

/-- The pH sub-score of `calculateWQI` (lines 202–204): `100` inside the
band; below the band `Math.max(0, 100 - (6.5 - ph) * 30)`; above it
`Math.max(0, 100 - (ph - 8.5) * 30)`.  A `NaN` pH fails both comparisons
and takes the initial value 100. -/
def phScore (p : JSNum) : JSNum :=
  if p.ltc 6.5 then JSNum.maxc 0 (JSNum.csub 100 ((JSNum.csub 6.5 p).mulc 30))
  else if p.gtc 8.5 then JSNum.maxc 0 (JSNum.csub 100 ((p.subc 8.5).mulc 30))
  else .num 100

/-- The TDS sub-score (line 210): `Math.max(0, 100 - tds / 10)`. -/
def tdsScore (t : JSNum) : JSNum :=
  JSNum.maxc 0 (JSNum.csub 100 (t.divc 10))

/-- The turbidity sub-score (line 216): `Math.max(0, 100 - turbidity*2)`. -/
def turbidityScore (u : JSNum) : JSNum :=
  JSNum.maxc 0 (JSNum.csub 100 (u.mulc 2))

/-- The dissolved-oxygen sub-score (line 222): `Math.min(100, do*16.67)`. -/
def doScore (d : JSNum) : JSNum :=
  JSNum.minc 100 (d.mulc 16.67)

/-- One `wqi += score * weight; totalWeight += weight` update of
`calculateWQI`; the state is `(wqi, totalWeight)`. -/
def wqiStep (st : JSNum × ℚ) (score : JSNum) (w : ℚ) : JSNum × ℚ :=
  (st.1.add (score.mulc w), st.2 + w)

/-- One `if (reading.x !== undefined) { … }` block of `calculateWQI`:
apply the update when the field is present, else leave the state alone. -/
def wqiStage (st : JSNum × ℚ) (x : Option JSNum) (score : JSNum → JSNum)
    (w : ℚ) : JSNum × ℚ :=
  match x with
  | none => st
  | some v => wqiStep st (score v) w

/-- `calculateWQI` (src/lib/utils.ts lines 189-228): each present field
contributes `score * weight` to `wqi` and its weight to `totalWeight`
(weights: pH 0.25, TDS 0.20, turbidity 0.15, dissolved oxygen 0.15); the
result is `Math.round(wqi / totalWeight)` when `totalWeight > 0`, else 0.
There is no NaN test anywhere in the function: presence is
`!== undefined` only. -/
def calculateWQI (reading : PartialReading) : JSNum :=
  let st1 := wqiStage (.num 0, 0) reading.ph phScore 0.25
  let st2 := wqiStage st1 reading.tds tdsScore 0.20
  let st3 := wqiStage st2 reading.turbidity turbidityScore 0.15
  let st4 := wqiStage st3 reading.dissolved_oxygen doScore 0.15
  if st4.2 > 0 then (st4.1.divc st4.2).jround else .num 0

end Utils

namespace Api

/-- Alert `type` union of src/lib/api.ts. -/
inductive AlertType where
  | wqi_low | ph_anomaly | turbidity_high | tds_high | sensor_offline
  deriving DecidableEq, Repr

/-- Alert `severity` union of src/lib/api.ts. -/
inductive Severity where
  | low | medium | high | critical
  deriving DecidableEq, Repr

/-- Alert `status` union of src/lib/api.ts. -/
inductive AlertStatus where
  | active | acknowledged | resolved
  deriving DecidableEq, Repr

/-- The `Alert` interface of src/lib/api.ts (fields set by the generators;
`triggered_at` is `new Date()`, modelled as epoch milliseconds supplied by
the caller as the evaluation instant; the optional `id`, `resolved_at`,
`acknowledged_by` fields are never set by the generators). -/
structure Alert where
  user_id : String
  sensor_id : String
  location : String
  type : AlertType
  severity : Severity
  message : String
  status : AlertStatus
  triggered_at : Int
  deriving DecidableEq, Repr

/-- The `SensorReading` interface of src/lib/api.ts (both versions declare
the same shape): `timestamp` is declared `string`; `ph` … `tds`,
`latitude`, `longitude` are required numbers; `turbidity`, `temperature`,
`dissolved_oxygen` are optional. -/
structure SensorReading where
  id : Option String := none
  sensor_id : String
  timestamp : String
  well_id : String
  ph : JSNum
  ec : JSNum
  co3 : JSNum
  hco3 : JSNum
  cl : JSNum
  so4 : JSNum
  no3 : JSNum
  th : JSNum
  ca : JSNum
  mg : JSNum
  na : JSNum
  k : JSNum
  f : JSNum
  tds : JSNum
  turbidity : Option JSNum := none
  temperature : Option JSNum := none
  dissolved_oxygen : Option JSNum := none
  latitude : JSNum
  longitude : JSNum
  state : String
  district : String
  deriving DecidableEq, Repr

namespace V1

/-- The argument type of the first version's `generateAlerts`:
`Partial<SensorReading> & { sensor_id: string; ph: number; tds: number }`.
Only `sensor_id`, `ph`, `tds` and `turbidity` are read by the function;
the remaining `Partial` fields are never inspected. -/
structure GenerateAlertsInput where
  sensor_id : String
  ph : JSNum
  tds : JSNum
  turbidity : Option JSNum := none
  deriving DecidableEq, Repr

/-- `ApiService.generateAlerts` of the first src/lib/api.ts version
(lines 521–573): pH outside [6.5, 8.5] pushes a `ph_anomaly` whose severity
is `high` when pH < 5.5 or pH > 9.5; TDS > 500 pushes a `tds_high` whose
severity is `high` when TDS > 1000; turbidity > 25 (when present) pushes a
`turbidity_high` whose severity is `high` when turbidity > 50.  Each rule
is guarded by `typeof x === 'number' && !isNaN(x)`.  The function body is
wrapped in `try`/`catch` and always returns the accumulated list (nothing
in the body can throw).  Split here into its three `alerts.push` blocks.

The `// pH alerts` block: -/
def phAlertsOf (reading : GenerateAlertsInput) (location : String)
    (now : Int) : List Alert :=
  match reading.ph with
  | .num p =>
      if p < 6.5 ∨ p > 8.5 then
        [{ user_id := ""
           sensor_id := reading.sensor_id
           location := location
           type := .ph_anomaly
           severity := if p < 5.5 ∨ p > 9.5 then .high else .medium
           message := "pH level (" ++ toFixed 2 p ++ ") is outside safe range (6.5-8.5)"
           status := .active
           triggered_at := now }]
      else []
  | .nan => []

/-- The `// TDS alerts` block of the first version's `generateAlerts`. -/
def tdsAlertsOf (reading : GenerateAlertsInput) (location : String)
    (now : Int) : List Alert :=
  match reading.tds with
  | .num t =>
      if t > 500 then
        [{ user_id := ""
           sensor_id := reading.sensor_id
           location := location
           type := .tds_high
           severity := if t > 1000 then .high else .medium
           message := "TDS level (" ++ numToString t ++ " ppm) is elevated"
           status := .active
           triggered_at := now }]
      else []
  | .nan => []

/-- The `// Turbidity alerts` block of the first version's
`generateAlerts`. -/
def turbidityAlertsOf (reading : GenerateAlertsInput) (location : String)
    (now : Int) : List Alert :=
  match reading.turbidity with
  | some (.num u) =>
      if u > 25 then
        [{ user_id := ""
           sensor_id := reading.sensor_id
           location := location
           type := .turbidity_high
           severity := if u > 50 then .high else .medium
           message := "Turbidity (" ++ toFixed 1 u ++ " NTU) is high"
           status := .active
           triggered_at := now }]
      else []
  | _ => []

def generateAlerts (reading : GenerateAlertsInput) (location : String)
    (now : Int) : List Alert :=
  phAlertsOf reading location now ++ tdsAlertsOf reading location now ++
    turbidityAlertsOf reading location now

end V1

namespace V2

/-- `ApiService.generateWQIAlerts` of the second src/lib/api.ts version
(lines 1486–1542): returns `[]` when `reading.sensor_id` is falsy; builds
the location label from `district`/`state` (JS `||` makes the empty string
fall back to `"Unknown"`); pH outside [6.5, 8.5] pushes a `ph_anomaly`
whose severity is `high` when pH < 6.0 or pH > 9.0; TDS > 500 pushes a
`tds_high` whose severity is `high` when TDS > 1000; turbidity > 25 pushes
a `turbidity_high` whose severity is `high` when turbidity > 50.
Split below into the location label and the three `alerts.push` blocks.

The `const location = ...` line (JS `||` makes the empty string fall back
to `"Unknown"`): -/
def wqiLocation (reading : SensorReading) : String :=
  (if reading.district = "" then "Unknown" else reading.district) ++ ", " ++
  (if reading.state = "" then "Unknown" else reading.state)

/-- The `// pH alerts` block of `generateWQIAlerts`. -/
def phAlertsOf (reading : SensorReading) (now : Int) : List Alert :=
  match reading.ph with
  | .num p =>
      if p < 6.5 ∨ p > 8.5 then
        [{ user_id := ""
           sensor_id := reading.sensor_id
           location := wqiLocation reading
           type := .ph_anomaly
           severity := if p < 6.0 ∨ p > 9.0 then .high else .medium
           message := "pH level (" ++ toFixed 2 p ++ ") is outside safe range (6.5-8.5)"
           status := .active
           triggered_at := now }]
      else []
  | .nan => []

/-- The `// TDS alerts` block of `generateWQIAlerts`. -/
def tdsAlertsOf (reading : SensorReading) (now : Int) : List Alert :=
  match reading.tds with
  | .num t =>
      if t > 500 then
        [{ user_id := ""
           sensor_id := reading.sensor_id
           location := wqiLocation reading
           type := .tds_high
           severity := if t > 1000 then .high else .medium
           message := "TDS level (" ++ numToString t ++ " ppm) is elevated"
           status := .active
           triggered_at := now }]
      else []
  | .nan => []

/-- The `// Turbidity alerts` block of `generateWQIAlerts`. -/
def turbidityAlertsOf (reading : SensorReading) (now : Int) : List Alert :=
  match reading.turbidity with
  | some (.num u) =>
      if u > 25 then
        [{ user_id := ""
           sensor_id := reading.sensor_id
           location := wqiLocation reading
           type := .turbidity_high
           severity := if u > 50 then .high else .medium
           message := "Turbidity (" ++ toFixed 1 u ++ " NTU) is high"
           status := .active
           triggered_at := now }]
      else []
  | _ => []

def generateWQIAlerts (reading : SensorReading) (now : Int) : List Alert :=
  if reading.sensor_id = "" then []
  else
    phAlertsOf reading now ++ tdsAlertsOf reading now ++
      turbidityAlertsOf reading now

end V2

end Api

example : Utils.calculateWQI {} = .num 0 := by with_unfolding_all decide
example : Utils.calculateWQI { ph := some (.num (15/2)) } = .num 100 := by with_unfolding_all decide
example : Utils.calculateWQI { ph := some .nan, tds := some (.num 100) } = .num 96 := by with_unfolding_all decide
example : Utils.calculateWQI { tds := some (.num 100) } = .num 90 := by with_unfolding_all decide
example : Utils.calculateWQI { tds := some .nan } = .nan := by with_unfolding_all decide
example : (Api.V1.generateAlerts ⟨"S1", .num 9.6, .num 1200, none⟩ "L" 0).map
    (fun a => (a.type, a.severity)) = [(.ph_anomaly, .high), (.tds_high, .high)] := by
  with_unfolding_all decide
example : (Api.V1.generateAlerts ⟨"S1", .num 5.8, .num 0, none⟩ "L" 0).map
    (fun a => (a.type, a.severity, a.message)) =
    [(.ph_anomaly, .medium, "pH level (5.80) is outside safe range (6.5-8.5)")] := by
  with_unfolding_all decide

/-- Civil date from days since the Unix epoch (standard Gregorian
day-count algorithm): returns `(year, month, day)`. -/
def civilFromDays (z0 : Int) : Int × ℕ × ℕ :=
  let z := z0 + 719468
  let era := z.fdiv 146097
  let doe : ℕ := (z - era * 146097).toNat
  let yoe := (doe - doe / 1460 + doe / 36524 - doe / 146096) / 365
  let y : Int := (yoe : Int) + era * 400
  let doy := doe - (365 * yoe + yoe / 4 - yoe / 100)
  let mp := (5 * doy + 2) / 153
  let d := doy - (153 * mp + 2) / 5 + 1
  let m := if mp < 10 then mp + 3 else mp - 9
  (if m ≤ 2 then y + 1 else y, m, d)

/-- JS `Date.prototype.toISOString` on an epoch-milliseconds instant:
`YYYY-MM-DDTHH:MM:SS.mmmZ` (UTC). -/
def toISOString (ms : Int) : String :=
  let days := ms.fdiv 86400000
  let msOfDay := (ms - days * 86400000).toNat
  let ymd := civilFromDays days
  let hh := msOfDay / 3600000
  let mm := msOfDay % 3600000 / 60000
  let ss := msOfDay % 60000 / 1000
  let mss := msOfDay % 1000
  (if ymd.1 < 0 then "-" else "") ++ padZeros 4 ymd.1.natAbs ++ "-" ++
    padZeros 2 ymd.2.1 ++ "-" ++ padZeros 2 ymd.2.2 ++ "T" ++
    padZeros 2 hh ++ ":" ++ padZeros 2 mm ++ ":" ++ padZeros 2 ss ++ "." ++
    padZeros 3 mss ++ "Z"

example : toISOString 0 = "1970-01-01T00:00:00.000Z" := by with_unfolding_all decide
example : toISOString 1700000000000 = "2023-11-14T22:13:20.000Z" := by with_unfolding_all decide

/-- `parseFloat(x.toFixed(d))`: round to `d` decimal places. -/
def roundTo (d : ℕ) (q : ℚ) : ℚ :=
  ((round (q * (10 : ℚ) ^ d) : ℤ) : ℚ) / (10 : ℚ) ^ d

namespace Api

/-- `prediction` sub-object of the `MLPredictionResponse` interface. -/
structure PredictionBody where
  wqi : ℚ
  quality_class : String
  confidence : ℚ
  horizon : ℚ
  deriving DecidableEq, Repr

/-- `model_info` sub-object of the `MLPredictionResponse` interface. -/
structure ModelInfo where
  name : String
  type : String
  version : String
  deriving DecidableEq, Repr

/-- The `MLPredictionResponse` interface of src/lib/api.ts (the
`explanations: Record<string, unknown>` field is always `{}` in the code
modelled here and is omitted). -/
structure MLPredictionResponse where
  sensor_id : String
  task : String
  prediction : PredictionBody
  model_info : ModelInfo
  status : String
  timestamp : String
  deriving DecidableEq, Repr

/-- The `MLAPIRequest` interface of src/lib/api.ts. -/
structure MLAPIRequest where
  sensor_id : String
  readings : List SensorReading
  horizon : Option ℚ := none
  deriving DecidableEq, Repr

/-- Outcome of one `fetch` to the ML service: a parsed 2xx response, or a
transport failure (network error, timeout abort, or non-2xx status — all
of which the source turns into a thrown exception inside the `try`). -/
inductive TransportResult where
  | success (resp : MLPredictionResponse) : TransportResult
  | failure : TransportResult
  deriving DecidableEq, Repr

namespace V2

/-- `ApiService.getMockPrediction` of the second src/lib/api.ts version
(lines 1006–1029), the fallback used after any caught error.  `r1`, `r2`
are the two `Math.random()` draws (each in [0,1)) and `now` the
`new Date().toISOString()` string.  The `catch` branch inside the source
(returning `status: 'error'`) is unreachable: the `try` body cannot throw.
Note the returned `status` is the literal `'success'`. -/
def getMockPrediction (sensorId task : String) (r1 r2 : ℚ) (now : String) :
    MLPredictionResponse :=
  let wqi := r1 * 100
  let qualityClass :=
    if wqi > 80 then "Excellent"
    else if wqi > 60 then "Good"
    else if wqi > 40 then "Poor"
    else if wqi > 20 then "Very Poor"
    else "Unsuitable"
  { sensor_id := if sensorId = "" then "unknown_sensor" else sensorId
    task := if task = "" then "unknown" else task
    prediction :=
      { wqi := roundTo 2 wqi
        quality_class := qualityClass
        confidence := roundTo 3 (0.75 + r2 * 0.25)
        horizon := if task = "forecast" then 365 else 0 }
    model_info :=
      { name :=
          if task = "forecast" then "XGBRegressor"
          else if task = "nowcast" then "ElasticNet"
          else "RandomForest"
        type := "sklearn"
        version := "1.0.0" }
    status := "success"
    timestamp := now }

/-- The `try` body of `getNowcast` (second version, lines 902–925):
validation throws on falsy `sensor_id` / empty `readings`; otherwise one
POST is issued and a non-2xx / network failure throws. -/
def nowcastTryBody (data : MLAPIRequest) (transport : TransportResult) :
    Except String MLPredictionResponse :=
  if data.sensor_id = "" ∨ data.readings = [] then
    .error "Invalid input data for nowcast"
  else
    match transport with
    | .success resp => .ok resp
    | .failure => .error "HTTP error"

/-- `ApiService.getNowcast` of the second src/lib/api.ts version
(lines 902–930): the whole `try` body is wrapped in a `catch` that returns
`getMockPrediction(data.sensor_id, 'nowcast')`, so the function never
raises.  The second component records whether a network call was issued
(validation failures jump to the `catch` before any `fetch`). -/
def getNowcast (data : MLAPIRequest) (transport : TransportResult)
    (r1 r2 : ℚ) (now : String) : Except String MLPredictionResponse × Bool :=
  (match nowcastTryBody data transport with
   | .ok resp => .ok resp
   | .error _ => .ok (getMockPrediction data.sensor_id "nowcast" r1 r2 now),
   if data.sensor_id = "" ∨ data.readings = [] then false else true)

/-- The request object `getForecast` actually posts (lines 944–947):
`{ ...data, horizon: data.horizon ?? 365 }`. -/
def forecastRequestData (data : MLAPIRequest) : MLAPIRequest :=
  { data with horizon := some (data.horizon.getD 365) }

/-- The `try` body of `getForecast` (second version, lines 935–963). -/
def forecastTryBody (data : MLAPIRequest) (transport : TransportResult) :
    Except String MLPredictionResponse :=
  if data.sensor_id = "" ∨ data.readings = [] then
    .error "Invalid input data for forecast"
  else
    match transport with
    | .success resp => .ok resp
    | .failure => .error "HTTP error"

/-- `ApiService.getForecast` of the second src/lib/api.ts version
(lines 935–968): as `getNowcast`, with the mock task `'forecast'`. -/
def getForecast (data : MLAPIRequest) (transport : TransportResult)
    (r1 r2 : ℚ) (now : String) : Except String MLPredictionResponse × Bool :=
  (match forecastTryBody data transport with
   | .ok resp => .ok resp
   | .error _ => .ok (getMockPrediction data.sensor_id "forecast" r1 r2 now),
   if data.sensor_id = "" ∨ data.readings = [] then false else true)

/-- The `try` body of `getClassification` (second version, lines 973–996). -/
def classificationTryBody (data : MLAPIRequest) (transport : TransportResult) :
    Except String MLPredictionResponse :=
  if data.sensor_id = "" ∨ data.readings = [] then
    .error "Invalid input data for classification"
  else
    match transport with
    | .success resp => .ok resp
    | .failure => .error "HTTP error"

/-- `ApiService.getClassification` of the second src/lib/api.ts version
(lines 973–1001): as `getNowcast`, with the mock task `'classify'`. -/
def getClassification (data : MLAPIRequest) (transport : TransportResult)
    (r1 r2 : ℚ) (now : String) : Except String MLPredictionResponse × Bool :=
  (match classificationTryBody data transport with
   | .ok resp => .ok resp
   | .error _ => .ok (getMockPrediction data.sensor_id "classify" r1 r2 now),
   if data.sensor_id = "" ∨ data.readings = [] then false else true)

/-- `ApiService.formatForMLAPI` of the second src/lib/api.ts version
(lines 1548–1570): throws on empty input or a falsy first `sensor_id`;
otherwise spreads each reading, replacing `timestamp` by itself when it is
a string (which it always is under the declared `SensorReading` interface,
whose `timestamp : string`; the `new Date().toISOString()` branch of the
ternary is unreachable for type-correct inputs). -/
def formatForMLAPI (readings : List SensorReading) :
    Except String MLAPIRequest :=
  match readings with
  | [] => .error "No readings provided"
  | first :: _ =>
      if first.sensor_id = "" then .error "First reading must have a sensor_id"
      else
        .ok { sensor_id := first.sensor_id
              readings := readings.map fun r => { r with timestamp := r.timestamp }
              horizon := none }

end V2

end Api

namespace Types

/-- `timestamp: Date | string` of the `SensorReading` interface in
src/types/index.ts; a `Date` is an epoch-milliseconds instant. -/
inductive Timestamp where
  | str (s : String) : Timestamp
  | date (ms : Int) : Timestamp
  deriving DecidableEq, Repr

/-- The `SensorReading` interface of src/types/index.ts: `sensor_id`,
`ph`, `ec`, `tds` required; everything else optional. -/
structure SensorReading where
  id : Option String := none
  sensor_id : String
  timestamp : Timestamp
  well_id : Option String := none
  ph : JSNum
  ec : JSNum
  co3 : Option JSNum := none
  hco3 : Option JSNum := none
  cl : Option JSNum := none
  so4 : Option JSNum := none
  no3 : Option JSNum := none
  th : Option JSNum := none
  ca : Option JSNum := none
  mg : Option JSNum := none
  na : Option JSNum := none
  k : Option JSNum := none
  f : Option JSNum := none
  tds : JSNum
  turbidity : Option JSNum := none
  temperature : Option JSNum := none
  dissolved_oxygen : Option JSNum := none
  latitude : Option JSNum := none
  longitude : Option JSNum := none
  state : Option String := none
  district : Option String := none
  wqi_raw : Option JSNum := none
  deriving DecidableEq, Repr

/-- One element of `MLAPIRequest.readings` in src/types/index.ts:
every field required, `timestamp` a string. -/
structure MLReading where
  timestamp : String
  well_id : String
  ph : JSNum
  ec : JSNum
  co3 : JSNum
  hco3 : JSNum
  cl : JSNum
  so4 : JSNum
  no3 : JSNum
  th : JSNum
  ca : JSNum
  mg : JSNum
  na : JSNum
  k : JSNum
  f : JSNum
  tds : JSNum
  latitude : JSNum
  longitude : JSNum
  state : String
  district : String
  deriving DecidableEq, Repr

/-- The `MLAPIRequest` interface of src/types/index.ts. -/
structure MLAPIRequest where
  sensor_id : String
  readings : List MLReading
  horizon : Option ℚ := none
  deriving DecidableEq, Repr

end Types

namespace Utils

/-- JS `a || b` on an optional string: `b` when `a` is absent or empty. -/
def orElse (a : Option String) (b : String) : String :=
  match a with
  | some s => if s = "" then b else s
  | none => b

/-- `formatForMLAPI` of src/lib/utils.ts (lines 150–186): throws on empty
input; otherwise keys the request by the first reading's `sensor_id` and
maps every reading in order, coercing its own `timestamp` to an ISO-8601
string (`typeof timestamp === 'string' ? timestamp :
timestamp.toISOString()`), defaulting the missing chemistry fields with
`??` and the location strings with `||`. -/
def formatForMLAPI (readings : List Types.SensorReading) :
    Except String Types.MLAPIRequest :=
  match readings with
  | [] => .error "No readings provided for ML API"
  | first :: _ =>
      .ok { sensor_id := first.sensor_id
            readings := readings.map fun reading =>
              { timestamp :=
                  match reading.timestamp with
                  | .str s => s
                  | .date ms => toISOString ms
                well_id := orElse reading.well_id reading.sensor_id
                ph := reading.ph
                ec := reading.ec
                co3 := reading.co3.getD (.num 12)
                hco3 := reading.hco3.getD (.num 180)
                cl := reading.cl.getD (.num 25)
                so4 := reading.so4.getD (.num 18)
                no3 := reading.no3.getD (.num 8)
                th := reading.th.getD (.num 220)
                ca := reading.ca.getD (.num 65)
                mg := reading.mg.getD (.num 15)
                na := reading.na.getD (.num 28)
                k := reading.k.getD (.num 5)
                f := reading.f.getD (.num 0.8)
                tds := reading.tds
                latitude := reading.latitude.getD (.num 0)
                longitude := reading.longitude.getD (.num 0)
                state := orElse reading.state "DKI Jakarta"
                district := orElse reading.district "Jakarta" }
            horizon := none }

end Utils

namespace Api

namespace V1

/-- The fixed `headers` list of the first version's `exportToCSV`
(lines 618–643): 24 field names. -/
def headers : List String :=
  ["timestamp", "sensor_id", "well_id", "ph", "ec", "co3", "hco3", "cl",
   "so4", "no3", "th", "ca", "mg", "na", "k", "f", "tds", "turbidity",
   "temperature", "dissolved_oxygen", "latitude", "longitude", "state",
   "district"]

/-- The `getValue` helper of the first version's `exportToCSV`
(lines 646–674): string fields pass through (`|| ''`), numeric fields are
`x?.toString() || ''` (so an absent optional field becomes the empty
string), unknown keys give the empty string. -/
def getValue (reading : SensorReading) (key : String) : String :=
  match key with
  | "timestamp" => reading.timestamp
  | "sensor_id" => reading.sensor_id
  | "well_id" => reading.well_id
  | "ph" => jsnumToString reading.ph
  | "ec" => jsnumToString reading.ec
  | "co3" => jsnumToString reading.co3
  | "hco3" => jsnumToString reading.hco3
  | "cl" => jsnumToString reading.cl
  | "so4" => jsnumToString reading.so4
  | "no3" => jsnumToString reading.no3
  | "th" => jsnumToString reading.th
  | "ca" => jsnumToString reading.ca
  | "mg" => jsnumToString reading.mg
  | "na" => jsnumToString reading.na
  | "k" => jsnumToString reading.k
  | "f" => jsnumToString reading.f
  | "tds" => jsnumToString reading.tds
  | "turbidity" =>
      match reading.turbidity with
      | some v => jsnumToString v
      | none => ""
  | "temperature" =>
      match reading.temperature with
      | some v => jsnumToString v
      | none => ""
  | "dissolved_oxygen" =>
      match reading.dissolved_oxygen with
      | some v => jsnumToString v
      | none => ""
  | "latitude" => jsnumToString reading.latitude
  | "longitude" => jsnumToString reading.longitude
  | "state" => reading.state
  | "district" => reading.district
  | _ => ""

/-- Double every `"` in a character list (the `value.replace(/"/g, '""')`
step of the CSV escaper). -/
def escQuotes : List Char → List Char
  | [] => []
  | c :: cs => if c = '"' then '"' :: '"' :: escQuotes cs else c :: escQuotes cs

/-- The CSV escaping step of the first version's `exportToCSV`
(lines 680–687): a value containing a comma, a double quote or a newline
is wrapped in double quotes with internal quotes doubled; any other value
is emitted as is. -/
def escapeCSV (value : String) : String :=
  if value.data.any (fun c => c = ',' || c = '"' || c = '\n') then
    String.mk ('"' :: escQuotes value.data ++ ['"'])
  else value

/-- One CSV data row of the first version's `exportToCSV`. -/
def rowOf (reading : SensorReading) : String :=
  String.intercalate "," (headers.map fun h => escapeCSV (getValue reading h))

/-- The `csvContent` string built by the first version's `exportToCSV`
(lines 676–690): joined header row followed by one row per reading,
newline-separated.  The function throws on empty data; the browser
download plumbing below the content construction is outside the model. -/
def exportToCSV (data : List SensorReading) : Except String String :=
  if data = [] then .error "No data to export"
  else .ok (String.intercalate "\n"
    (String.intercalate "," headers :: data.map rowOf))

end V1

namespace V2

/-- The fixed `headers` list of the second version's `exportToCSV`
(lines 1585–1598): 12 field names (no `district`/`state`). -/
def headers : List String :=
  ["timestamp", "sensor_id", "ph", "ec", "tds", "turbidity", "temperature",
   "dissolved_oxygen", "no3", "cl", "latitude", "longitude"]

/-- One cell of the second version's `exportToCSV` (lines 1604–1607):
`value !== undefined && value !== null ? String(value) : ''` — note the
absence of any quoting or escaping. -/
def cellValue (reading : SensorReading) (key : String) : String :=
  match key with
  | "timestamp" => reading.timestamp
  | "sensor_id" => reading.sensor_id
  | "ph" => jsnumToString reading.ph
  | "ec" => jsnumToString reading.ec
  | "tds" => jsnumToString reading.tds
  | "turbidity" =>
      match reading.turbidity with
      | some v => jsnumToString v
      | none => ""
  | "temperature" =>
      match reading.temperature with
      | some v => jsnumToString v
      | none => ""
  | "dissolved_oxygen" =>
      match reading.dissolved_oxygen with
      | some v => jsnumToString v
      | none => ""
  | "no3" => jsnumToString reading.no3
  | "cl" => jsnumToString reading.cl
  | "latitude" => jsnumToString reading.latitude
  | "longitude" => jsnumToString reading.longitude
  | _ => ""

/-- One CSV data row of the second version's `exportToCSV`: raw values
joined by commas, no quoting. -/
def rowOf (reading : SensorReading) : String :=
  String.intercalate "," (headers.map fun h => cellValue reading h)

/-- The `csvContent` string built by the second version's `exportToCSV`
(lines 1600–1610). -/
def exportToCSV (data : List SensorReading) : Except String String :=
  if data = [] then .error "No data to export"
  else .ok (String.intercalate "\n"
    (String.intercalate "," headers :: data.map rowOf))

end V2

end Api

/-- Standard CSV record parser (RFC-4180 quoting), used to state the
round-trip property of the quoting export: splits one row into its cells,
honouring quoted cells with doubled internal quotes.  `inQ` is true while
inside a quoted section, `cur` accumulates the current cell reversed. -/
def parseCSVRowAux : List Char → Bool → List Char → List String
  | [], _, cur => [String.mk cur.reverse]
  | '"' :: '"' :: cs2, true, cur => parseCSVRowAux cs2 true ('"' :: cur)
  | '"' :: cs, true, cur => parseCSVRowAux cs false cur
  | c :: cs, true, cur => parseCSVRowAux cs true (c :: cur)
  | ',' :: cs, false, cur => String.mk cur.reverse :: parseCSVRowAux cs false []
  | '"' :: cs, false, cur => parseCSVRowAux cs true cur
  | c :: cs, false, cur => parseCSVRowAux cs false (c :: cur)

/-- Parse one CSV row into its list of cell values. -/
def parseCSVRow (s : String) : List String :=
  parseCSVRowAux s.data false []

example : parseCSVRow "a,\"b,\"\"c\",d" = ["a", "b,\"c", "d"] := by
  with_unfolding_all decide

theorem JSNum.add_num (a b : ℚ) : JSNum.add (.num a) (.num b) = .num (a + b) := rfl

theorem JSNum.mulc_num (a c : ℚ) : JSNum.mulc (.num a) c = .num (a * c) := rfl

theorem JSNum.divc_num (a c : ℚ) : JSNum.divc (.num a) c = .num (a / c) := rfl

/-- Invariant carried through the stages of `calculateWQI`: the
accumulator is a number `a` with `0 ≤ a ≤ 100 · totalWeight`, and the
total weight is nonnegative. -/
def WQIInv (st : JSNum × ℚ) : Prop :=
  ∃ a : ℚ, st.1 = .num a ∧ 0 ≤ a ∧ a ≤ 100 * st.2 ∧ 0 ≤ st.2

theorem wqiInv_init : WQIInv (.num 0, 0) :=
  ⟨0, rfl, le_refl 0, by norm_num, le_refl 0⟩

theorem wqiInv_step {st : JSNum × ℚ} (h : WQIInv st) {s : ℚ}
    (hs0 : 0 ≤ s) (hs1 : s ≤ 100) {w : ℚ} (hw : 0 ≤ w) :
    WQIInv (Utils.wqiStep st (.num s) w) := by
  obtain ⟨a, ha, ha0, ha1, htw⟩ := h
  refine ⟨a + s * w, ?_, ?_, ?_, by simp only [Utils.wqiStep]; linarith⟩
  · simp [Utils.wqiStep, ha, JSNum.add_num, JSNum.mulc_num]
  · nlinarith
  · simp only [Utils.wqiStep]
    nlinarith

theorem wqiInv_stage {st : JSNum × ℚ} (h : WQIInv st) (x : Option JSNum)
    (score : JSNum → JSNum) (w : ℚ) (hw : 0 ≤ w) (pb : JSNum → Bool)
    (hsc : ∀ v, pb v = true → ∃ s, score v = .num s ∧ 0 ≤ s ∧ s ≤ 100)
    (hx : x.all pb = true) :
    WQIInv (Utils.wqiStage st x score w) := by
  cases x with
  | none => exact h
  | some v =>
      obtain ⟨s, hs, hs0, hs1⟩ := hsc v (by simpa [Option.all] using hx)
      simpa [Utils.wqiStage, hs] using wqiInv_step h hs0 hs1 hw

theorem phScore_bounds (p : JSNum) :
    ∃ s : ℚ, Utils.phScore p = .num s ∧ 0 ≤ s ∧ s ≤ 100 := by
  cases p with
  | nan => exact ⟨100, rfl, by norm_num, by norm_num⟩
  | num q =>
      by_cases h1 : q < 6.5
      · refine ⟨max 0 (100 - (6.5 - q) * 30), ?_, le_max_left _ _, ?_⟩
        · simp [Utils.phScore, JSNum.ltc, h1, JSNum.maxc, JSNum.csub, JSNum.mulc]
        · apply max_le (by norm_num)
          nlinarith
      · by_cases h2 : q > 8.5
        · refine ⟨max 0 (100 - (q - 8.5) * 30), ?_, le_max_left _ _, ?_⟩
          · simp [Utils.phScore, JSNum.ltc, JSNum.gtc, h1, h2, JSNum.maxc,
              JSNum.subc, JSNum.csub, JSNum.mulc]
          · apply max_le (by norm_num)
            nlinarith
        · refine ⟨100, ?_, by norm_num, by norm_num⟩
          simp [Utils.phScore, JSNum.ltc, JSNum.gtc, h1, h2]

theorem tdsScore_bounds (t : JSNum) (ht : t.nonnegB = true) :
    ∃ s : ℚ, Utils.tdsScore t = .num s ∧ 0 ≤ s ∧ s ≤ 100 := by
  cases t with
  | nan => simp [JSNum.nonnegB] at ht
  | num q =>
      have hq : 0 ≤ q := by simpa [JSNum.nonnegB] using ht
      refine ⟨max 0 (100 - q / 10), ?_, le_max_left _ _, ?_⟩
      · simp [Utils.tdsScore, JSNum.maxc, JSNum.csub, JSNum.divc]
      · apply max_le (by norm_num)
        have : 0 ≤ q / 10 := by positivity
        linarith

theorem turbidityScore_bounds (u : JSNum) (hu : u.nonnegB = true) :
    ∃ s : ℚ, Utils.turbidityScore u = .num s ∧ 0 ≤ s ∧ s ≤ 100 := by
  cases u with
  | nan => simp [JSNum.nonnegB] at hu
  | num q =>
      have hq : 0 ≤ q := by simpa [JSNum.nonnegB] using hu
      refine ⟨max 0 (100 - q * 2), ?_, le_max_left _ _, ?_⟩
      · simp [Utils.turbidityScore, JSNum.maxc, JSNum.csub, JSNum.mulc]
      · apply max_le (by norm_num)
        nlinarith

theorem doScore_bounds (d : JSNum) (hd : d.nonnegB = true) :
    ∃ s : ℚ, Utils.doScore d = .num s ∧ 0 ≤ s ∧ s ≤ 100 := by
  cases d with
  | nan => simp [JSNum.nonnegB] at hd
  | num q =>
      have hq : 0 ≤ q := by simpa [JSNum.nonnegB] using hd
      refine ⟨min 100 (q * 16.67), ?_, ?_, min_le_left _ _⟩
      · simp [Utils.doScore, JSNum.minc, JSNum.mulc]
      · apply le_min (by norm_num)
        nlinarith

theorem round_div_bounds (a t : ℚ) (h0 : 0 ≤ a) (h1 : a ≤ 100 * t)
    (ht : 0 < t) : 0 ≤ (round (a / t) : ℤ) ∧ (round (a / t) : ℤ) ≤ 100 := by
  have hq0 : (0 : ℚ) ≤ a / t := div_nonneg h0 ht.le
  have hq1 : a / t ≤ 100 := by
    rw [div_le_iff₀ ht]
    linarith
  constructor
  · rw [round_eq]
    refine Int.le_floor.mpr ?_
    push_cast
    linarith
  · rw [round_eq]
    have hlt : ⌊a / t + 1 / 2⌋ < 101 := by
      refine Int.floor_lt.mpr ?_
      push_cast
      linarith
    omega

theorem calculateWQI_final (st : JSNum × ℚ) (h : WQIInv st) :
    ∃ n : ℤ, (if st.2 > 0 then (st.1.divc st.2).jround else .num 0) =
      .num (n : ℚ) ∧ 0 ≤ n ∧ n ≤ 100 := by
  obtain ⟨a, ha, ha0, ha1, htw⟩ := h
  by_cases hpos : st.2 > 0
  · rw [if_pos hpos, ha, JSNum.divc_num]
    obtain ⟨hl, hr⟩ := round_div_bounds a st.2 ha0 ha1 hpos
    exact ⟨round (a / st.2), rfl, hl, hr⟩
  · rw [if_neg hpos]
    exact ⟨0, by norm_num, le_refl 0, by norm_num⟩

/-- C3: for every reading whose populated WQI parameters satisfy the
data-model invariants (pH numeric; TDS, turbidity, dissolved oxygen
numeric and ≥ 0), `calculateWQI` returns an integer in [0, 100]; it
returns 0 when no parameter is present; and for a reading with only
pH = 7.5 present it returns exactly 100. -/
theorem calculateWQI_in_range (r : Utils.PartialReading)
    (hph : r.ph.all JSNum.isNumB = true)
    (htds : r.tds.all JSNum.nonnegB = true)
    (hturb : r.turbidity.all JSNum.nonnegB = true)
    (hdo : r.dissolved_oxygen.all JSNum.nonnegB = true) :
    (∃ n : ℤ, Utils.calculateWQI r = .num (n : ℚ) ∧ 0 ≤ n ∧ n ≤ 100) ∧
    Utils.calculateWQI {} = .num 0 ∧
    Utils.calculateWQI { ph := some (.num 7.5) } = .num 100 := by
  refine ⟨?_, by with_unfolding_all decide, by with_unfolding_all decide⟩
  have h1 : WQIInv (Utils.wqiStage (.num 0, 0) r.ph Utils.phScore 0.25) :=
    wqiInv_stage wqiInv_init r.ph Utils.phScore 0.25 (by norm_num)
      JSNum.isNumB (fun v _ => phScore_bounds v) hph
  have h2 := wqiInv_stage h1 r.tds Utils.tdsScore 0.20 (by norm_num)
    JSNum.nonnegB (fun v hv => tdsScore_bounds v hv) htds
  have h3 := wqiInv_stage h2 r.turbidity Utils.turbidityScore 0.15 (by norm_num)
    JSNum.nonnegB (fun v hv => turbidityScore_bounds v hv) hturb
  have h4 := wqiInv_stage h3 r.dissolved_oxygen Utils.doScore 0.15 (by norm_num)
    JSNum.nonnegB (fun v hv => doScore_bounds v hv) hdo
  simpa only [Utils.calculateWQI] using calculateWQI_final _ h4

/-- Witness for `calculateWQI_in_range` at a concrete reading with all
four parameters present and valid. -/
theorem calculateWQI_in_range_witness :
    (({ ph := some (.num 7), tds := some (.num 50),
        turbidity := some (.num 10), dissolved_oxygen := some (.num 8) } :
          Utils.PartialReading).ph.all JSNum.isNumB = true) ∧
    (∃ n : ℤ, Utils.calculateWQI
        { ph := some (.num 7), tds := some (.num 50),
          turbidity := some (.num 10), dissolved_oxygen := some (.num 8) } =
        .num (n : ℚ) ∧ 0 ≤ n ∧ n ≤ 100) :=
  ⟨by with_unfolding_all decide,
   (calculateWQI_in_range
      { ph := some (.num 7), tds := some (.num 50),
        turbidity := some (.num 10), dissolved_oxygen := some (.num 8) }
      (by with_unfolding_all decide) (by with_unfolding_all decide)
      (by with_unfolding_all decide) (by with_unfolding_all decide)).1⟩

/-- C4 (code bug): `calculateWQI` does **not** treat a present-but-NaN
parameter as absent.  A `NaN` pH passes the `!== undefined` test, fails
both band comparisons, and contributes a perfect sub-score of 100 together
with its weight: `{ph: NaN, tds: 100}` scores 96 while `{tds: 100}` scores
90.  A `NaN` TDS makes the whole result `NaN` instead of being dropped. -/
theorem calculateWQI_nan_counterexample :
    Utils.calculateWQI { ph := some .nan, tds := some (.num 100) } = .num 96 ∧
    Utils.calculateWQI { tds := some (.num 100) } = .num 90 ∧
    Utils.calculateWQI { ph := some .nan, tds := some (.num 100) } ≠
      Utils.calculateWQI { tds := some (.num 100) } ∧
    Utils.calculateWQI { tds := some .nan } = .nan := by
  refine ⟨?_, ?_, ?_, ?_⟩ <;> with_unfolding_all decide

/-- The alerts of a given `type` in a generator's output. -/
def alertsOfType (l : List Api.Alert) (t : Api.AlertType) : List Api.Alert :=
  l.filter fun a => decide (a.type = t)

theorem alertsOfType_append (l1 l2 : List Api.Alert) (t : Api.AlertType) :
    alertsOfType (l1 ++ l2) t = alertsOfType l1 t ++ alertsOfType l2 t :=
  List.filter_append l1 l2

theorem alertsOfType_singleton_ne (a : Api.Alert) (t : Api.AlertType)
    (h : a.type ≠ t) : alertsOfType [a] t = [] := by
  simp [alertsOfType, h]

theorem alertsOfType_singleton_eq (a : Api.Alert) (t : Api.AlertType)
    (h : a.type = t) : alertsOfType [a] t = [a] := by
  simp [alertsOfType, h]

/-- Shape of one generator rule block: empty, or one alert of the block's
type, in status `active`, with empty `user_id`. -/
def BlockShape (l : List Api.Alert) (t : Api.AlertType) : Prop :=
  l = [] ∨ ∃ a, l = [a] ∧ a.type = t ∧ a.status = .active ∧ a.user_id = ""

theorem blockShape_alertsOfType_ne {l : List Api.Alert} {t : Api.AlertType}
    (h : BlockShape l t) {u : Api.AlertType} (hne : t ≠ u) :
    alertsOfType l u = [] := by
  rcases h with h | ⟨a, rfl, hat, _, _⟩
  · rw [h]; rfl
  · exact alertsOfType_singleton_ne a u (by rw [hat]; exact hne)

theorem blockShape_length {l : List Api.Alert} {t : Api.AlertType}
    (h : BlockShape l t) : l.length ≤ 1 := by
  rcases h with h | ⟨a, rfl, _⟩
  · simp [h]
  · simp

theorem blockShape_mem {l : List Api.Alert} {t : Api.AlertType}
    (h : BlockShape l t) {a : Api.Alert} (ha : a ∈ l) :
    a.status = .active ∧ a.user_id = "" := by
  rcases h with h | ⟨b, rfl, _, hs, hu⟩
  · rw [h] at ha; cases ha
  · rcases List.mem_singleton.mp ha with rfl
    exact ⟨hs, hu⟩

theorem v1_ph_shape (r : Api.V1.GenerateAlertsInput) (loc : String)
    (now : Int) : BlockShape (Api.V1.phAlertsOf r loc now) .ph_anomaly := by
  unfold BlockShape
  rcases hp : r.ph with _ | p
  · simp only [Api.V1.phAlertsOf, hp]
    exact Or.inl (by simp)
  · simp only [Api.V1.phAlertsOf, hp]
    by_cases h : p < 6.5 ∨ p > 8.5
    · rw [if_pos h]
      exact Or.inr ⟨_, rfl, rfl, rfl, rfl⟩
    · rw [if_neg h]
      exact Or.inl rfl

theorem v1_tds_shape (r : Api.V1.GenerateAlertsInput) (loc : String)
    (now : Int) : BlockShape (Api.V1.tdsAlertsOf r loc now) .tds_high := by
  unfold BlockShape
  rcases ht : r.tds with _ | t
  · simp only [Api.V1.tdsAlertsOf, ht]
    exact Or.inl (by simp)
  · simp only [Api.V1.tdsAlertsOf, ht]
    by_cases h : t > 500
    · rw [if_pos h]
      exact Or.inr ⟨_, rfl, rfl, rfl, rfl⟩
    · rw [if_neg h]
      exact Or.inl rfl

theorem v1_turbidity_shape (r : Api.V1.GenerateAlertsInput) (loc : String)
    (now : Int) :
    BlockShape (Api.V1.turbidityAlertsOf r loc now) .turbidity_high := by
  unfold BlockShape
  rcases hu : r.turbidity with _ | (_ | q)
  · simp only [Api.V1.turbidityAlertsOf, hu]
    exact Or.inl (by simp)
  · simp only [Api.V1.turbidityAlertsOf, hu]
    exact Or.inl (by simp)
  · simp only [Api.V1.turbidityAlertsOf, hu]
    by_cases h : q > 25
    · rw [if_pos h]
      exact Or.inr ⟨_, rfl, rfl, rfl, rfl⟩
    · rw [if_neg h]
      exact Or.inl rfl

theorem v2_ph_shape (r : Api.SensorReading) (now : Int) :
    BlockShape (Api.V2.phAlertsOf r now) .ph_anomaly := by
  unfold BlockShape
  rcases hp : r.ph with _ | p
  · simp only [Api.V2.phAlertsOf, hp]
    exact Or.inl (by simp)
  · simp only [Api.V2.phAlertsOf, hp]
    by_cases h : p < 6.5 ∨ p > 8.5
    · rw [if_pos h]
      exact Or.inr ⟨_, rfl, rfl, rfl, rfl⟩
    · rw [if_neg h]
      exact Or.inl rfl

theorem v2_tds_shape (r : Api.SensorReading) (now : Int) :
    BlockShape (Api.V2.tdsAlertsOf r now) .tds_high := by
  unfold BlockShape
  rcases ht : r.tds with _ | t
  · simp only [Api.V2.tdsAlertsOf, ht]
    exact Or.inl (by simp)
  · simp only [Api.V2.tdsAlertsOf, ht]
    by_cases h : t > 500
    · rw [if_pos h]
      exact Or.inr ⟨_, rfl, rfl, rfl, rfl⟩
    · rw [if_neg h]
      exact Or.inl rfl

theorem v2_turbidity_shape (r : Api.SensorReading) (now : Int) :
    BlockShape (Api.V2.turbidityAlertsOf r now) .turbidity_high := by
  unfold BlockShape
  rcases hu : r.turbidity with _ | (_ | q)
  · simp only [Api.V2.turbidityAlertsOf, hu]
    exact Or.inl (by simp)
  · simp only [Api.V2.turbidityAlertsOf, hu]
    exact Or.inl (by simp)
  · simp only [Api.V2.turbidityAlertsOf, hu]
    by_cases h : q > 25
    · rw [if_pos h]
      exact Or.inr ⟨_, rfl, rfl, rfl, rfl⟩
    · rw [if_neg h]
      exact Or.inl rfl

theorem v1_generateAlerts_blocks (r : Api.V1.GenerateAlertsInput)
    (loc : String) (now : Int) :
    Api.V1.generateAlerts r loc now =
      Api.V1.phAlertsOf r loc now ++ Api.V1.tdsAlertsOf r loc now ++
        Api.V1.turbidityAlertsOf r loc now := rfl

theorem v2_generateWQIAlerts_blocks (r : Api.SensorReading) (now : Int)
    (hs : r.sensor_id ≠ "") :
    Api.V2.generateWQIAlerts r now =
      Api.V2.phAlertsOf r now ++ Api.V2.tdsAlertsOf r now ++
        Api.V2.turbidityAlertsOf r now := by
  simp [Api.V2.generateWQIAlerts, hs]

theorem three_blocks_bounds (A B C : List Api.Alert)
    (hA : BlockShape A .ph_anomaly) (hB : BlockShape B .tds_high)
    (hC : BlockShape C .turbidity_high) :
    (A ++ B ++ C).length ≤ 3 ∧
    (alertsOfType (A ++ B ++ C) .ph_anomaly).length ≤ 1 ∧
    (alertsOfType (A ++ B ++ C) .tds_high).length ≤ 1 ∧
    (alertsOfType (A ++ B ++ C) .turbidity_high).length ≤ 1 := by
  have lA := blockShape_length hA
  have lB := blockShape_length hB
  have lC := blockShape_length hC
  refine ⟨?_, ?_, ?_, ?_⟩
  · simp only [List.length_append]
    omega
  · rw [alertsOfType_append, alertsOfType_append,
      blockShape_alertsOfType_ne hB (by decide),
      blockShape_alertsOfType_ne hC (by decide)]
    simp only [List.append_nil, List.length_append]
    calc (alertsOfType A .ph_anomaly).length ≤ A.length :=
          List.length_filter_le _ A
    _ ≤ 1 := lA
  · rw [alertsOfType_append, alertsOfType_append,
      blockShape_alertsOfType_ne hA (by decide),
      blockShape_alertsOfType_ne hC (by decide)]
    simp only [List.nil_append, List.append_nil]
    calc (alertsOfType B .tds_high).length ≤ B.length :=
          List.length_filter_le _ B
    _ ≤ 1 := lB
  · rw [alertsOfType_append, alertsOfType_append,
      blockShape_alertsOfType_ne hA (by decide),
      blockShape_alertsOfType_ne hB (by decide)]
    simp only [List.nil_append]
    calc (alertsOfType C .turbidity_high).length ≤ C.length :=
          List.length_filter_le _ C
    _ ≤ 1 := lC

/-- C10: for every reading and location label, each generator emits at
most one alert of each type (`ph_anomaly`, `tds_high`, `turbidity_high`),
and hence at most 3 alerts in total. -/
theorem generateAlerts_at_most_one_per_type
    (r1 : Api.V1.GenerateAlertsInput) (loc : String)
    (r2 : Api.SensorReading) (now : Int) :
    ((Api.V1.generateAlerts r1 loc now).length ≤ 3 ∧
     (alertsOfType (Api.V1.generateAlerts r1 loc now) .ph_anomaly).length ≤ 1 ∧
     (alertsOfType (Api.V1.generateAlerts r1 loc now) .tds_high).length ≤ 1 ∧
     (alertsOfType (Api.V1.generateAlerts r1 loc now) .turbidity_high).length ≤ 1) ∧
    ((Api.V2.generateWQIAlerts r2 now).length ≤ 3 ∧
     (alertsOfType (Api.V2.generateWQIAlerts r2 now) .ph_anomaly).length ≤ 1 ∧
     (alertsOfType (Api.V2.generateWQIAlerts r2 now) .tds_high).length ≤ 1 ∧
     (alertsOfType (Api.V2.generateWQIAlerts r2 now) .turbidity_high).length ≤ 1) := by
  constructor
  · rw [v1_generateAlerts_blocks]
    exact three_blocks_bounds _ _ _ (v1_ph_shape r1 loc now)
      (v1_tds_shape r1 loc now) (v1_turbidity_shape r1 loc now)
  · by_cases hs : r2.sensor_id = ""
    · simp [Api.V2.generateWQIAlerts, hs, alertsOfType]
    · rw [v2_generateWQIAlerts_blocks r2 now hs]
      exact three_blocks_bounds _ _ _ (v2_ph_shape r2 now)
        (v2_tds_shape r2 now) (v2_turbidity_shape r2 now)

theorem three_blocks_mem (A B C : List Api.Alert)
    (hA : BlockShape A .ph_anomaly) (hB : BlockShape B .tds_high)
    (hC : BlockShape C .turbidity_high) {a : Api.Alert}
    (ha : a ∈ A ++ B ++ C) :
    a.status = .active ∧ a.user_id = "" := by
  rcases List.mem_append.mp ha with h | h
  · rcases List.mem_append.mp h with h2 | h2
    · exact blockShape_mem hA h2
    · exact blockShape_mem hB h2
  · exact blockShape_mem hC h

/-- C9: every alert either generator emits has status `active` and an
empty `user_id`; and a reading whose pH, TDS and turbidity are all missing
or NaN yields the empty alert list (the generators themselves are total
functions — the source wraps its body in `try`/`catch` and nothing in the
body can throw).  In the first version's input type `ph` and `tds` are
required fields, so "missing" there is the NaN case. -/
theorem generateAlerts_active_empty_user_and_silent
    (r1 : Api.V1.GenerateAlertsInput) (loc : String)
    (r2 : Api.SensorReading) (now : Int) :
    (∀ a ∈ Api.V1.generateAlerts r1 loc now,
       a.status = .active ∧ a.user_id = "") ∧
    (∀ a ∈ Api.V2.generateWQIAlerts r2 now,
       a.status = .active ∧ a.user_id = "") ∧
    (r1.ph = .nan → r1.tds = .nan →
       r1.turbidity = none ∨ r1.turbidity = some .nan →
       Api.V1.generateAlerts r1 loc now = []) ∧
    (r2.ph = .nan → r2.tds = .nan →
       r2.turbidity = none ∨ r2.turbidity = some .nan →
       Api.V2.generateWQIAlerts r2 now = []) := by
  refine ⟨?_, ?_, ?_, ?_⟩
  · intro a ha
    rw [v1_generateAlerts_blocks] at ha
    exact three_blocks_mem _ _ _ (v1_ph_shape r1 loc now)
      (v1_tds_shape r1 loc now) (v1_turbidity_shape r1 loc now) ha
  · intro a ha
    by_cases hs : r2.sensor_id = ""
    · simp [Api.V2.generateWQIAlerts, hs] at ha
    · rw [v2_generateWQIAlerts_blocks r2 now hs] at ha
      exact three_blocks_mem _ _ _ (v2_ph_shape r2 now)
        (v2_tds_shape r2 now) (v2_turbidity_shape r2 now) ha
  · intro hph htds hturb
    rw [v1_generateAlerts_blocks]
    have h1 : Api.V1.phAlertsOf r1 loc now = [] := by
      simp [Api.V1.phAlertsOf, hph]
    have h2 : Api.V1.tdsAlertsOf r1 loc now = [] := by
      simp [Api.V1.tdsAlertsOf, htds]
    have h3 : Api.V1.turbidityAlertsOf r1 loc now = [] := by
      rcases hturb with h | h <;> simp [Api.V1.turbidityAlertsOf, h]
    rw [h1, h2, h3]
    rfl
  · intro hph htds hturb
    by_cases hs : r2.sensor_id = ""
    · simp [Api.V2.generateWQIAlerts, hs]
    · rw [v2_generateWQIAlerts_blocks r2 now hs]
      have h1 : Api.V2.phAlertsOf r2 now = [] := by
        simp [Api.V2.phAlertsOf, hph]
      have h2 : Api.V2.tdsAlertsOf r2 now = [] := by
        simp [Api.V2.tdsAlertsOf, htds]
      have h3 : Api.V2.turbidityAlertsOf r2 now = [] := by
        rcases hturb with h | h <;> simp [Api.V2.turbidityAlertsOf, h]
      rw [h1, h2, h3]
      rfl

/-- Witness for `generateAlerts_active_empty_user_and_silent`: a reading
with NaN pH, NaN TDS and missing turbidity yields no alerts, and the
concrete out-of-range reading of §8 of the spec gets `active`/""-tagged
alerts. -/
theorem generateAlerts_active_empty_user_and_silent_witness :
    (Api.V1.generateAlerts ⟨"S1", .nan, .nan, none⟩ "Jakarta" 0 = []) ∧
    (∀ a ∈ Api.V1.generateAlerts ⟨"S1", .num 9.6, .num 1200, none⟩ "Jakarta" 0,
       a.status = .active ∧ a.user_id = "") := by
  constructor
  · exact (generateAlerts_active_empty_user_and_silent
      ⟨"S1", .nan, .nan, none⟩ "Jakarta"
      { sensor_id := "S1", timestamp := "", well_id := "", ph := .nan,
        ec := .nan, co3 := .nan, hco3 := .nan, cl := .nan, so4 := .nan,
        no3 := .nan, th := .nan, ca := .nan, mg := .nan, na := .nan,
        k := .nan, f := .nan, tds := .nan, latitude := .nan,
        longitude := .nan, state := "", district := "" } 0).2.2.1
      rfl rfl (Or.inl rfl)
  · exact (generateAlerts_active_empty_user_and_silent
      ⟨"S1", .num 9.6, .num 1200, none⟩ "Jakarta"
      { sensor_id := "S1", timestamp := "", well_id := "", ph := .nan,
        ec := .nan, co3 := .nan, hco3 := .nan, cl := .nan, so4 := .nan,
        no3 := .nan, th := .nan, ca := .nan, mg := .nan, na := .nan,
        k := .nan, f := .nan, tds := .nan, latitude := .nan,
        longitude := .nan, state := "", district := "" } 0).1

theorem alertsOfType_three (A B C : List Api.Alert) (t : Api.AlertType) :
    alertsOfType (A ++ B ++ C) t =
      alertsOfType A t ++ alertsOfType B t ++ alertsOfType C t := by
  rw [alertsOfType_append, alertsOfType_append]

/-- C6: for every reading with a numeric non-NaN TDS, in both generator
versions: TDS ≤ 500 emits no `tds_high` alert; TDS > 500 emits exactly one
`tds_high` alert, with severity `high` iff TDS > 1000 (else `medium`).
For `generateWQIAlerts` the reading's required sensor identifier is
assumed non-empty (the data-model invariant), since that function returns
`[]` wholesale on a falsy `sensor_id`. -/
theorem tds_high_rules (t : ℚ) (r1 : Api.V1.GenerateAlertsInput)
    (loc : String) (r2 : Api.SensorReading) (now : Int)
    (h1 : r1.tds = .num t) (h2 : r2.tds = .num t)
    (hs : r2.sensor_id ≠ "") :
    (t ≤ 500 →
      alertsOfType (Api.V1.generateAlerts r1 loc now) .tds_high = [] ∧
      alertsOfType (Api.V2.generateWQIAlerts r2 now) .tds_high = []) ∧
    (t > 500 →
      ∃ a b : Api.Alert,
        alertsOfType (Api.V1.generateAlerts r1 loc now) .tds_high = [a] ∧
        a.severity = (if t > 1000 then .high else .medium) ∧
        alertsOfType (Api.V2.generateWQIAlerts r2 now) .tds_high = [b] ∧
        b.severity = (if t > 1000 then .high else .medium)) := by
  have hA1 := v1_ph_shape r1 loc now
  have hC1 := v1_turbidity_shape r1 loc now
  have hA2 := v2_ph_shape r2 now
  have hC2 := v2_turbidity_shape r2 now
  constructor
  · intro hle
    have hnot : ¬t > 500 := not_lt.mpr hle
    have e1 : Api.V1.tdsAlertsOf r1 loc now = [] := by
      simp [Api.V1.tdsAlertsOf, h1, hnot]
    have e2 : Api.V2.tdsAlertsOf r2 now = [] := by
      simp [Api.V2.tdsAlertsOf, h2, hnot]
    constructor
    · rw [v1_generateAlerts_blocks, alertsOfType_three,
        blockShape_alertsOfType_ne hA1 (by decide),
        blockShape_alertsOfType_ne hC1 (by decide), e1]
      rfl
    · rw [v2_generateWQIAlerts_blocks r2 now hs, alertsOfType_three,
        blockShape_alertsOfType_ne hA2 (by decide),
        blockShape_alertsOfType_ne hC2 (by decide), e2]
      rfl
  · intro hgt
    have e1 : Api.V1.tdsAlertsOf r1 loc now =
        [{ user_id := "", sensor_id := r1.sensor_id, location := loc,
           type := .tds_high,
           severity := if t > 1000 then .high else .medium,
           message := "TDS level (" ++ numToString t ++ " ppm) is elevated",
           status := .active, triggered_at := now }] := by
      simp [Api.V1.tdsAlertsOf, h1, hgt]
    have e2 : Api.V2.tdsAlertsOf r2 now =
        [{ user_id := "", sensor_id := r2.sensor_id,
           location := Api.V2.wqiLocation r2, type := .tds_high,
           severity := if t > 1000 then .high else .medium,
           message := "TDS level (" ++ numToString t ++ " ppm) is elevated",
           status := .active, triggered_at := now }] := by
      simp [Api.V2.tdsAlertsOf, h2, hgt]
    have f1 : alertsOfType (Api.V1.generateAlerts r1 loc now) .tds_high =
        Api.V1.tdsAlertsOf r1 loc now := by
      rw [v1_generateAlerts_blocks, alertsOfType_three,
        blockShape_alertsOfType_ne hA1 (by decide),
        blockShape_alertsOfType_ne hC1 (by decide), e1,
        alertsOfType_singleton_eq _ _ rfl]
      rfl
    have f2 : alertsOfType (Api.V2.generateWQIAlerts r2 now) .tds_high =
        Api.V2.tdsAlertsOf r2 now := by
      rw [v2_generateWQIAlerts_blocks r2 now hs, alertsOfType_three,
        blockShape_alertsOfType_ne hA2 (by decide),
        blockShape_alertsOfType_ne hC2 (by decide), e2,
        alertsOfType_singleton_eq _ _ rfl]
      rfl
    rw [f1, f2, e1, e2]
    exact ⟨_, _, rfl, rfl, rfl, rfl⟩

/-- Witness for `tds_high_rules` at TDS = 1200 (> 1000, severity `high`)
on a concrete reading. -/
theorem tds_high_rules_witness :
    ((1200 : ℚ) > 500) ∧
    (∃ a b : Api.Alert,
      alertsOfType (Api.V1.generateAlerts ⟨"S1", .num 7, .num 1200, none⟩
        "Jakarta" 0) .tds_high = [a] ∧
      a.severity = (if (1200 : ℚ) > 1000 then .high else .medium) ∧
      alertsOfType (Api.V2.generateWQIAlerts
        { sensor_id := "S1", timestamp := "", well_id := "", ph := .num 7,
          ec := .num 1, co3 := .num 1, hco3 := .num 1, cl := .num 1,
          so4 := .num 1, no3 := .num 1, th := .num 1, ca := .num 1,
          mg := .num 1, na := .num 1, k := .num 1, f := .num 1,
          tds := .num 1200, latitude := .num 0, longitude := .num 0,
          state := "DKI Jakarta", district := "Jakarta" } 0) .tds_high = [b] ∧
      b.severity = (if (1200 : ℚ) > 1000 then .high else .medium)) :=
  ⟨by norm_num,
   (tds_high_rules 1200 ⟨"S1", .num 7, .num 1200, none⟩ "Jakarta"
      { sensor_id := "S1", timestamp := "", well_id := "", ph := .num 7,
        ec := .num 1, co3 := .num 1, hco3 := .num 1, cl := .num 1,
        so4 := .num 1, no3 := .num 1, th := .num 1, ca := .num 1,
        mg := .num 1, na := .num 1, k := .num 1, f := .num 1,
        tds := .num 1200, latitude := .num 0, longitude := .num 0,
        state := "DKI Jakarta", district := "Jakarta" } 0 rfl rfl
      (by decide)).2 (by norm_num)⟩

/-- C2 counterexample: at pH = 5.8 (numeric, < 6.0) the first version's
`generateAlerts` emits a `ph_anomaly` of severity `medium`, not `high`:
its high-severity thresholds are pH < 5.5 / pH > 9.5, not 6.0 / 9.0. -/
theorem ph_severity_counterexample :
    ((Api.V1.generateAlerts ⟨"S1", .num 5.8, .num 0, none⟩ "Jakarta" 0).map
      (fun a => (a.type, a.severity)) =
        [(Api.AlertType.ph_anomaly, Api.Severity.medium)]) ∧
    (5.8 : ℚ) < 6.0 ∧ Api.Severity.medium ≠ Api.Severity.high := by
  refine ⟨?_, ?_, ?_⟩ <;> with_unfolding_all decide

/-- C2 amended: for every reading with a numeric non-NaN pH, both
generator versions emit no `ph_anomaly` when 6.5 ≤ pH ≤ 8.5 and exactly
one `ph_anomaly` otherwise, whose message contains the pH rendered by
`toFixed(2)`; the high-severity thresholds differ per version:
`generateAlerts` uses pH < 5.5 / pH > 9.5, `generateWQIAlerts` uses
pH < 6.0 / pH > 9.0 (else `medium`).  For `generateWQIAlerts` the
reading's required sensor identifier is assumed non-empty. -/
theorem ph_anomaly_rules (p : ℚ) (r1 : Api.V1.GenerateAlertsInput)
    (loc : String) (r2 : Api.SensorReading) (now : Int)
    (h1 : r1.ph = .num p) (h2 : r2.ph = .num p)
    (hs : r2.sensor_id ≠ "") :
    (6.5 ≤ p ∧ p ≤ 8.5 →
      alertsOfType (Api.V1.generateAlerts r1 loc now) .ph_anomaly = [] ∧
      alertsOfType (Api.V2.generateWQIAlerts r2 now) .ph_anomaly = []) ∧
    (p < 6.5 ∨ p > 8.5 →
      ∃ a b : Api.Alert,
        alertsOfType (Api.V1.generateAlerts r1 loc now) .ph_anomaly = [a] ∧
        a.severity = (if p < 5.5 ∨ p > 9.5 then .high else .medium) ∧
        (∃ s1 s2 : String, a.message = s1 ++ toFixed 2 p ++ s2) ∧
        alertsOfType (Api.V2.generateWQIAlerts r2 now) .ph_anomaly = [b] ∧
        b.severity = (if p < 6.0 ∨ p > 9.0 then .high else .medium) ∧
        (∃ s1 s2 : String, b.message = s1 ++ toFixed 2 p ++ s2)) := by
  have hB1 := v1_tds_shape r1 loc now
  have hC1 := v1_turbidity_shape r1 loc now
  have hB2 := v2_tds_shape r2 now
  have hC2 := v2_turbidity_shape r2 now
  constructor
  · rintro ⟨hlo, hhi⟩
    have hnot : ¬(p < 6.5 ∨ p > 8.5) := by
      push_neg
      exact ⟨hlo, hhi⟩
    have e1 : Api.V1.phAlertsOf r1 loc now = [] := by
      simp only [Api.V1.phAlertsOf, h1]
      rw [if_neg hnot]
    have e2 : Api.V2.phAlertsOf r2 now = [] := by
      simp only [Api.V2.phAlertsOf, h2]
      rw [if_neg hnot]
    constructor
    · rw [v1_generateAlerts_blocks, alertsOfType_three,
        blockShape_alertsOfType_ne hB1 (by decide),
        blockShape_alertsOfType_ne hC1 (by decide), e1]
      rfl
    · rw [v2_generateWQIAlerts_blocks r2 now hs, alertsOfType_three,
        blockShape_alertsOfType_ne hB2 (by decide),
        blockShape_alertsOfType_ne hC2 (by decide), e2]
      rfl
  · intro hout
    have e1 : Api.V1.phAlertsOf r1 loc now =
        [{ user_id := "", sensor_id := r1.sensor_id, location := loc,
           type := .ph_anomaly,
           severity := if p < 5.5 ∨ p > 9.5 then .high else .medium,
           message := "pH level (" ++ toFixed 2 p ++
             ") is outside safe range (6.5-8.5)",
           status := .active, triggered_at := now }] := by
      simp only [Api.V1.phAlertsOf, h1]
      rw [if_pos hout]
    have e2 : Api.V2.phAlertsOf r2 now =
        [{ user_id := "", sensor_id := r2.sensor_id,
           location := Api.V2.wqiLocation r2, type := .ph_anomaly,
           severity := if p < 6.0 ∨ p > 9.0 then .high else .medium,
           message := "pH level (" ++ toFixed 2 p ++
             ") is outside safe range (6.5-8.5)",
           status := .active, triggered_at := now }] := by
      simp only [Api.V2.phAlertsOf, h2]
      rw [if_pos hout]
    have f1 : alertsOfType (Api.V1.generateAlerts r1 loc now) .ph_anomaly =
        Api.V1.phAlertsOf r1 loc now := by
      rw [v1_generateAlerts_blocks, alertsOfType_three,
        blockShape_alertsOfType_ne hB1 (by decide),
        blockShape_alertsOfType_ne hC1 (by decide), e1,
        alertsOfType_singleton_eq _ _ rfl]
      rfl
    have f2 : alertsOfType (Api.V2.generateWQIAlerts r2 now) .ph_anomaly =
        Api.V2.phAlertsOf r2 now := by
      rw [v2_generateWQIAlerts_blocks r2 now hs, alertsOfType_three,
        blockShape_alertsOfType_ne hB2 (by decide),
        blockShape_alertsOfType_ne hC2 (by decide), e2,
        alertsOfType_singleton_eq _ _ rfl]
      rfl
    rw [f1, f2, e1, e2]
    refine ⟨_, _, rfl, rfl, ?_, rfl, rfl, ?_⟩
    · exact ⟨"pH level (", ") is outside safe range (6.5-8.5)",
        (String.append_assoc _ _ _)⟩
    · exact ⟨"pH level (", ") is outside safe range (6.5-8.5)",
        (String.append_assoc _ _ _)⟩

/-- Witness for `ph_anomaly_rules` at pH = 9.6 (> 9.5, so `high` in both
versions) on a concrete reading. -/
theorem ph_anomaly_rules_witness :
    ((9.6 : ℚ) > 8.5) ∧
    (∃ a b : Api.Alert,
      alertsOfType (Api.V1.generateAlerts ⟨"S1", .num 9.6, .num 0, none⟩
        "Jakarta" 0) .ph_anomaly = [a] ∧
      a.severity = (if (9.6 : ℚ) < 5.5 ∨ (9.6 : ℚ) > 9.5 then .high else .medium) ∧
      (∃ s1 s2 : String, a.message = s1 ++ toFixed 2 9.6 ++ s2) ∧
      alertsOfType (Api.V2.generateWQIAlerts
        { sensor_id := "S1", timestamp := "", well_id := "", ph := .num 9.6,
          ec := .num 1, co3 := .num 1, hco3 := .num 1, cl := .num 1,
          so4 := .num 1, no3 := .num 1, th := .num 1, ca := .num 1,
          mg := .num 1, na := .num 1, k := .num 1, f := .num 1,
          tds := .num 0, latitude := .num 0, longitude := .num 0,
          state := "DKI Jakarta", district := "Jakarta" } 0) .ph_anomaly = [b] ∧
      b.severity = (if (9.6 : ℚ) < 6.0 ∨ (9.6 : ℚ) > 9.0 then .high else .medium) ∧
      (∃ s1 s2 : String, b.message = s1 ++ toFixed 2 9.6 ++ s2)) :=
  ⟨by norm_num,
   (ph_anomaly_rules 9.6 ⟨"S1", .num 9.6, .num 0, none⟩ "Jakarta"
      { sensor_id := "S1", timestamp := "", well_id := "", ph := .num 9.6,
        ec := .num 1, co3 := .num 1, hco3 := .num 1, cl := .num 1,
        so4 := .num 1, no3 := .num 1, th := .num 1, ca := .num 1,
        mg := .num 1, na := .num 1, k := .num 1, f := .num 1,
        tds := .num 0, latitude := .num 0, longitude := .num 0,
        state := "DKI Jakarta", district := "Jakarta" } 0 rfl rfl
      (by decide)).2 (Or.inr (by norm_num))⟩

/-- A concrete well-formed reading of the src/lib/api.ts shape, used by
closed statements below. -/
def sampleApiReading : Api.SensorReading :=
  { sensor_id := "S1", timestamp := "2024-01-01T00:00:00.000Z",
    well_id := "W1", ph := .num 7, ec := .num 1, co3 := .num 12,
    hco3 := .num 180, cl := .num 25, so4 := .num 18, no3 := .num 8,
    th := .num 220, ca := .num 65, mg := .num 15, na := .num 28,
    k := .num 5, f := .num 1, tds := .num 100, latitude := .num 0,
    longitude := .num 0, state := "DKI Jakarta", district := "Jakarta" }

/-- C1 counterexample: on a transport failure for a valid nowcast request,
the gateway returns the mock fallback whose `status` is the literal
`'success'` — the same status a genuine inference response carries — not
`'error'` or any other fallback marker. -/
theorem gateway_fallback_status_counterexample :
    ((Api.V2.getNowcast ⟨"S1", [sampleApiReading], none⟩ .failure 0.5 0.5
        "T").1 =
      .ok (Api.V2.getMockPrediction "S1" "nowcast" 0.5 0.5 "T")) ∧
    (Api.V2.getMockPrediction "S1" "nowcast" 0.5 0.5 "T").status =
      "success" ∧
    "success" ≠ "error" := by
  exact ⟨rfl, rfl, by decide⟩

/-- C1 amended: for every valid prediction request (non-empty readings,
non-empty sensor id), if the HTTP call fails (network error, timeout or
non-2xx), none of `getNowcast`/`getForecast`/`getClassification` raises to
the caller; each returns the `getMockPrediction` fallback — but that
fallback's `status` field is `'success'`, indistinguishable by status from
a real inference result (not `'error'`). -/
theorem gateway_fallback_never_raises (data : Api.MLAPIRequest)
    (r1 r2 : ℚ) (now : String)
    (hsid : data.sensor_id ≠ "") (hrd : data.readings ≠ []) :
    (Api.V2.getNowcast data .failure r1 r2 now).1 =
      .ok (Api.V2.getMockPrediction data.sensor_id "nowcast" r1 r2 now) ∧
    (Api.V2.getMockPrediction data.sensor_id "nowcast" r1 r2 now).status =
      "success" ∧
    (Api.V2.getForecast data .failure r1 r2 now).1 =
      .ok (Api.V2.getMockPrediction data.sensor_id "forecast" r1 r2 now) ∧
    (Api.V2.getMockPrediction data.sensor_id "forecast" r1 r2 now).status =
      "success" ∧
    (Api.V2.getClassification data .failure r1 r2 now).1 =
      .ok (Api.V2.getMockPrediction data.sensor_id "classify" r1 r2 now) ∧
    (Api.V2.getMockPrediction data.sensor_id "classify" r1 r2 now).status =
      "success" := by
  have hcond : ¬(data.sensor_id = "" ∨ data.readings = []) := by
    push_neg
    exact ⟨hsid, hrd⟩
  refine ⟨?_, rfl, ?_, rfl, ?_, rfl⟩
  · simp [Api.V2.getNowcast, Api.V2.nowcastTryBody, hcond]
  · simp [Api.V2.getForecast, Api.V2.forecastTryBody, hcond]
  · simp [Api.V2.getClassification, Api.V2.classificationTryBody, hcond]

/-- Witness for `gateway_fallback_never_raises` at a concrete valid
request. -/
theorem gateway_fallback_never_raises_witness :
    ("S1" : String) ≠ "" ∧
    (Api.V2.getNowcast ⟨"S1", [sampleApiReading], none⟩ .failure 0.5 0.5
        "T").1 =
      .ok (Api.V2.getMockPrediction "S1" "nowcast" 0.5 0.5 "T") :=
  ⟨by decide,
   (gateway_fallback_never_raises ⟨"S1", [sampleApiReading], none⟩ 0.5 0.5
      "T" (by decide) (by decide)).1⟩

/-- C5 counterexample: with an empty readings list, `getNowcast` does not
raise a validation error to the caller: its internal throw is caught by
its own `catch`, which returns the mock prediction (and no network call is
made, second component `false`). -/
theorem empty_readings_counterexample :
    (Api.V2.getNowcast ⟨"S1", [], none⟩ .failure 0.5 0.5 "T").1 =
      .ok (Api.V2.getMockPrediction "S1" "nowcast" 0.5 0.5 "T") ∧
    (Api.V2.getNowcast ⟨"S1", [], none⟩ .failure 0.5 0.5 "T").2 = false := by
  exact ⟨rfl, rfl⟩

/-- C5 amended: with an empty readings list each gateway entry point makes
zero network calls, but instead of raising it catches its own validation
error and returns the mock fallback; only the standalone `formatForMLAPI`
helpers throw synchronously on empty input. -/
theorem empty_readings_no_network (sid : String)
    (transport : Api.TransportResult) (r1 r2 : ℚ) (now : String) :
    (Api.V2.getNowcast ⟨sid, [], none⟩ transport r1 r2 now).2 = false ∧
    (Api.V2.getNowcast ⟨sid, [], none⟩ transport r1 r2 now).1 =
      .ok (Api.V2.getMockPrediction sid "nowcast" r1 r2 now) ∧
    (Api.V2.getForecast ⟨sid, [], none⟩ transport r1 r2 now).2 = false ∧
    (Api.V2.getForecast ⟨sid, [], none⟩ transport r1 r2 now).1 =
      .ok (Api.V2.getMockPrediction sid "forecast" r1 r2 now) ∧
    (Api.V2.getClassification ⟨sid, [], none⟩ transport r1 r2 now).2 = false ∧
    (Api.V2.getClassification ⟨sid, [], none⟩ transport r1 r2 now).1 =
      .ok (Api.V2.getMockPrediction sid "classify" r1 r2 now) ∧
    Utils.formatForMLAPI [] = .error "No readings provided for ML API" ∧
    Api.V2.formatForMLAPI [] = .error "No readings provided" := by
  refine ⟨?_, ?_, ?_, ?_, ?_, ?_, rfl, rfl⟩ <;>
    simp [Api.V2.getNowcast, Api.V2.getForecast, Api.V2.getClassification,
      Api.V2.nowcastTryBody, Api.V2.forecastTryBody,
      Api.V2.classificationTryBody]

/-- A concrete reading of the src/types/index.ts shape with a `Date`
timestamp, used by closed statements below. -/
def sampleTypesReading : Types.SensorReading :=
  { sensor_id := "S1", timestamp := .date 0, ph := .num 7, ec := .num 1,
    tds := .num 100 }

/-- C8: request normalization.  `formatForMLAPI` (utils.ts) keys the
request by the first reading's `sensor_id` and carries the full ordered
readings list, each element's `timestamp` coerced from that element's own
timestamp (kept if already a string, else that instant's `toISOString`);
the second api.ts version passes readings through unchanged (its declared
`timestamp` is already a string); and `getForecast` attaches
`horizon ?? 365` to the posted request when none was given. -/
theorem formatForMLAPI_normalization (readings : List Types.SensorReading)
    (h : readings ≠ []) (rs : List Api.SensorReading) (hrs : rs ≠ [])
    (hsid : (rs.head hrs).sensor_id ≠ "") (data : Api.MLAPIRequest)
    (hhor : data.horizon = none) :
    (∃ req : Types.MLAPIRequest,
      Utils.formatForMLAPI readings = .ok req ∧
      req.sensor_id = (readings.head h).sensor_id ∧
      req.readings.length = readings.length ∧
      ∀ i : ℕ, (req.readings[i]?).map (fun m => m.timestamp) =
        (readings[i]?).map (fun r =>
          match r.timestamp with
          | .str s => s
          | .date ms => toISOString ms)) ∧
    (∃ req0 : Api.MLAPIRequest,
      Api.V2.formatForMLAPI rs = .ok req0 ∧
      req0.sensor_id = (rs.head hrs).sensor_id ∧
      req0.readings = rs) ∧
    (Api.V2.forecastRequestData data).horizon = some 365 := by
  obtain ⟨f, rest, rfl⟩ := List.exists_cons_of_ne_nil h
  obtain ⟨f0, rest0, rfl⟩ := List.exists_cons_of_ne_nil hrs
  have hv2 : Api.V2.formatForMLAPI (f0 :: rest0) =
      .ok { sensor_id := f0.sensor_id,
            readings := (f0 :: rest0).map
              (fun r => { r with timestamp := r.timestamp }),
            horizon := none } := by
    simp only [Api.V2.formatForMLAPI]
    rw [if_neg (by simpa using hsid)]
  refine ⟨⟨_, rfl, rfl, ?_, ?_⟩, ⟨_, hv2, rfl, ?_⟩, ?_⟩
  · exact List.length_map _ _
  · intro i
    rw [List.getElem?_map]
    cases (f :: rest)[i]? <;> rfl
  · show List.map _ _ = _
    simp only [show (fun (r : Api.SensorReading) =>
        { r with timestamp := r.timestamp }) = fun r => r from rfl]
    exact List.map_id' _
  · simp [Api.V2.forecastRequestData, hhor]

/-- Witness for `formatForMLAPI_normalization`: a singleton list with a
`Date` timestamp (epoch 0) is coerced to its own ISO string. -/
theorem formatForMLAPI_normalization_witness :
    (([sampleTypesReading] : List Types.SensorReading) ≠ []) ∧
    (∃ req : Types.MLAPIRequest,
      Utils.formatForMLAPI [sampleTypesReading] = .ok req ∧
      req.sensor_id = (([sampleTypesReading] :
        List Types.SensorReading).head (by decide)).sensor_id ∧
      req.readings.length = ([sampleTypesReading] :
        List Types.SensorReading).length ∧
      ∀ i : ℕ, (req.readings[i]?).map (fun m => m.timestamp) =
        (([sampleTypesReading] :
            List Types.SensorReading)[i]?).map (fun r =>
          match r.timestamp with
          | .str s => s
          | .date ms => toISOString ms)) :=
  ⟨by decide,
   (formatForMLAPI_normalization [sampleTypesReading] (by decide)
      [sampleApiReading] (by decide) (by decide)
      ⟨"S1", [sampleApiReading], none⟩ rfl).1⟩

/-- `sampleApiReading` with a comma inside `sensor_id`. -/
def commaSensorReading : Api.SensorReading :=
  { sampleApiReading with sensor_id := "S,1" }

/-- `sampleApiReading` with a comma inside `district`. -/
def commaDistrictReading : Api.SensorReading :=
  { sampleApiReading with district := "Jakarta, Pusat" }

/-- C7 counterexample: the second version's `exportToCSV` does no quoting
at all.  A `sensor_id` containing a comma is emitted verbatim: the
produced row contains no double quote anywhere, and parsing it yields 13
cells against 12 header columns, so the original value cannot be
recovered. -/
theorem exportToCSV_v2_unquoted_counterexample :
    Api.V2.cellValue commaSensorReading "sensor_id" = "S,1" ∧
    ("S,1" : String).data.any (fun c => c = ',' || c = '"' || c = '\n') =
      true ∧
    (Api.V2.rowOf commaSensorReading).data.all (fun c => c ≠ '"') = true ∧
    (parseCSVRow (Api.V2.rowOf commaSensorReading)).length = 13 ∧
    Api.V2.headers.length = 12 := by
  refine ⟨?_, ?_, ?_, ?_, ?_⟩ <;> with_unfolding_all decide

/-- C7 amended: all the claimed CSV-export properties hold of the first
(24-column) `exportToCSV`: fixed ordered header row, one row per reading,
missing optional values stringified as the empty string, values containing
a comma / double quote / newline wrapped in doubled-quote escaping, and
the comma-in-district row re-parses to the original district.  The second
(12-column) version writes raw unquoted values and omits `district`
entirely (see the counterexample). -/
theorem exportToCSV_v1_format (data : List Api.SensorReading)
    (h : data ≠ []) (r : Api.SensorReading) (ht : r.turbidity = none)
    (htm : r.temperature = none) (hdo : r.dissolved_oxygen = none) :
    Api.V1.headers = ["timestamp", "sensor_id", "well_id", "ph", "ec",
      "co3", "hco3", "cl", "so4", "no3", "th", "ca", "mg", "na", "k", "f",
      "tds", "turbidity", "temperature", "dissolved_oxygen", "latitude",
      "longitude", "state", "district"] ∧
    Api.V1.exportToCSV data =
      .ok (String.intercalate "\n"
        (String.intercalate "," Api.V1.headers :: data.map Api.V1.rowOf)) ∧
    (data.map Api.V1.rowOf).length = data.length ∧
    Api.V1.getValue r "turbidity" = "" ∧
    Api.V1.getValue r "temperature" = "" ∧
    Api.V1.getValue r "dissolved_oxygen" = "" ∧
    (∀ s : String,
      s.data.any (fun c => c = ',' || c = '"' || c = '\n') = true →
      Api.V1.escapeCSV s = String.mk ('"' :: Api.V1.escQuotes s.data ++ ['"'])) ∧
    (parseCSVRow (Api.V1.rowOf commaDistrictReading))[23]? =
      some "Jakarta, Pusat" ∧
    commaDistrictReading.district = "Jakarta, Pusat" := by
  refine ⟨rfl, ?_, List.length_map _ _, ?_, ?_, ?_, ?_, ?_, rfl⟩
  · simp [Api.V1.exportToCSV, h]
  · simp [Api.V1.getValue, ht]
  · simp [Api.V1.getValue, htm]
  · simp [Api.V1.getValue, hdo]
  · intro s hs
    simp [Api.V1.escapeCSV, hs]
  · with_unfolding_all decide

/-- Witness for `exportToCSV_v1_format` at the concrete comma-in-district
reading. -/
theorem exportToCSV_v1_format_witness :
    (([commaDistrictReading] : List Api.SensorReading) ≠ []) ∧
    (Api.V1.exportToCSV [commaDistrictReading] =
      .ok (String.intercalate "\n"
        (String.intercalate "," Api.V1.headers ::
          [commaDistrictReading].map Api.V1.rowOf)) ∧
     (parseCSVRow (Api.V1.rowOf commaDistrictReading))[23]? =
       some "Jakarta, Pusat") :=
  ⟨by decide,
   ((exportToCSV_v1_format [commaDistrictReading] (by decide)
       commaDistrictReading rfl rfl rfl).2.1),
   ((exportToCSV_v1_format [commaDistrictReading] (by decide)
       commaDistrictReading rfl rfl rfl).2.2.2.2.2.2.2.1)⟩
